import Mathlib

/-!
Shallow embedding of the LoadFlare repository.

The repository has two Python scripts:
* src/load_flare.py       (single-template variant, namespace LoadFlare)
* src/multi_load_flare.py (multi-template variant, namespace MultiLoadFlare)

Each definition below is translated from the Python source; comments cite
the file and line numbers of the code being embedded.

Modelling conventions:
* command templates enter the embedding already tokenized, i.e. as the
  result of shlex.split; a shlex tokenization failure (unbalanced quote)
  is outside the model, since every claim in scope concerns behaviour
  after tokenization;
* subprocess execution is an explicit functional parameter
  subprocessRun : Nat -> List String -> Except ExecError ProcessResult
  taking the request number and the constructed argument list and
  returning either a raised executor error (FileNotFoundError or any
  other exception of subprocess.run) or a completed process;
* ThreadPoolExecutor(max_workers=w) raises ValueError when w <= 0 before
  any job is submitted (CPython concurrent.futures contract); this is the
  invalidConcurrency outcome of the run models;
* the as_completed collection loop is modelled as a left fold over the
  per-request results: completion order does not affect any counter,
  so the fold order is immaterial to the claims in scope;
* wall-clock quantities (per-request duration, overall elapsed time) and
  console printing are not modelled; the four summary counters and the
  reported totals are.
-/

/-- Outcome classes of the four summary counters kept by both variants
(success_count, client_error_count, server_error_count,
other_failure_count). -/
inductive OutcomeClass where
  | Success
  | ClientError
  | ServerError
  | OtherFailure
deriving DecidableEq, Repr

/-- Errors the executor call (subprocess.run) can raise: FileNotFoundError
for a missing curl binary, or any other unexpected exception.  Both
variants catch exactly these two cases (load_flare.py lines 98-117,
multi_load_flare.py lines 126-145). -/
inductive ExecError where
  | fileNotFound
  | unexpected (msg : String)
deriving DecidableEq, Repr

/-- The fields of a completed subprocess.run call that the scripts read. -/
structure ProcessResult where
  returncode : Int
  stdout : String
  stderr : String
deriving DecidableEq, Repr

/-- The final-summary data of a run: the reported total and the four
counters accumulated by the as_completed loop. -/
structure RunReport where
  totalAttempted : Int
  success : Nat
  clientError : Nat
  serverError : Nat
  otherFailure : Nat
deriving DecidableEq, Repr

/-- Sum of the four per-class counters of a report. -/
def RunReport.classTotal (r : RunReport) : Nat :=
  r.success + r.clientError + r.serverError + r.otherFailure

/-- One iteration of the as_completed collection loop: increment the one
counter selected by the outcome class. -/
def addOutcome (r : RunReport) (oc : OutcomeClass) : RunReport :=
  match oc with
  | .Success => { r with success := r.success + 1 }
  | .ClientError => { r with clientError := r.clientError + 1 }
  | .ServerError => { r with serverError := r.serverError + 1 }
  | .OtherFailure => { r with otherFailure := r.otherFailure + 1 }

/-- The as_completed collection loop of either variant: classify each
(return_code, http_status_code) result and accumulate the counters. -/
def collectResults (classify : Int → Option Nat → OutcomeClass)
    (results : List (Int × Option Nat)) (init : RunReport) : RunReport :=
  results.foldl (fun rep res => addOutcome rep (classify res.1 res.2)) init

/-- ASCII whitespace, as stripped by Python str.strip (the non-ASCII
whitespace code points Python also strips are not modelled; nothing in
scope produces them). -/
def isPyWhitespace (c : Char) : Bool :=
  c = ' ' ∨ c = '\t' ∨ c = '\n' ∨ c = '\r' ∨ c = '\x0b' ∨ c = '\x0c'

/-- Python str.strip on the character list of a string: drop whitespace
from both ends. -/
def stripChars (cs : List Char) : List Char :=
  ((cs.dropWhile isPyWhitespace).reverse.dropWhile isPyWhitespace).reverse

/-- Python str.split with separator newline, on a character list: always
returns at least one (possibly empty) piece, like the Python original. -/
def splitNL : List Char → List (List Char)
  | [] => [[]]
  | c :: rest =>
    if c = '\n' then [] :: splitNL rest
    else
      match splitNL rest with
      | [] => [[c]]
      | l :: ls => (c :: l) :: ls

/-- Numeric value of a list of ASCII digit characters. -/
def digitsToNat (ds : List Char) : Nat :=
  ds.foldl (fun n d => n * 10 + (d.toNat - 48)) 0

/-- Python str.startswith with a single dash argument. -/
def startsWithDash (s : String) : Bool :=
  match s.data with
  | c :: _ => c = '-'
  | [] => false

/-- Models CPython int(str) on an optionally signed ASCII decimal literal,
with surrounding whitespace stripped.  Underscore digit grouping and
non-ASCII digits are not modelled; no claim in scope exercises them. -/
def pythonInt? (s : String) : Option Int :=
  match stripChars s.data with
  | [] => none
  | c :: cs =>
    let ds := if c = '-' ∨ c = '+' then cs else c :: cs
    if ds ≠ [] ∧ ds.all Char.isDigit then
      some (if c = '-' then -(digitsToNat ds : Int) else (digitsToNat ds : Int))
    else none

/-- The write-out format string both scripts inject after -w. -/
def httpCodeFmt : String := "%\x7bhttp_code\x7d\n"

namespace LoadFlare

/-- load_flare.py line 29: the command actually executed, with -w and the
format string inserted right after the leading curl token.  An empty
argument list would raise IndexError in Python; main guarantees the list
is nonempty and starts with curl before any call. -/
def modified_command_args : List String → List String
  | [] => []
  | c0 :: rest => c0 :: "-w" :: httpCodeFmt :: rest

/-- load_flare.py lines 45-57: split the stripped stdout into lines; if
the last line is a nonempty all-digit string (re.fullmatch on digits),
that line parsed as an integer is the extracted status code. -/
def extract_status (stdout : String) : Option Nat :=
  let output_lines := splitNL (stripChars stdout.data)
  match output_lines.getLast? with
  | some lastLine =>
      if lastLine ≠ [] ∧ lastLine.all Char.isDigit then
        some (digitsToNat lastLine)
      else none
  | none => none

/-- load_flare.py lines 12-117 (execute_curl), restricted to the data the
collection loop consumes: on a completed process return
(returncode, extracted status code); on FileNotFoundError or any other
exception return (-1, none).  Durations and printing are not modelled. -/
def execute_curl (command_args : List String)
    (subprocessRun : List String → Except ExecError ProcessResult) :
    Int × Option Nat :=
  match subprocessRun (modified_command_args command_args) with
  | .error _ => (-1, none)
  | .ok p => (p.returncode, extract_status p.stdout)

/-- load_flare.py lines 181-191: the per-result branch of the as_completed
loop, mapping (return_code, http_status_code) to the counter incremented. -/
def classify (return_code : Int) (http_status_code : Option Nat) :
    OutcomeClass :=
  match http_status_code with
  | some code =>
      if return_code = 0 then
        if 200 ≤ code ∧ code < 400 then .Success
        else if 400 ≤ code ∧ code < 500 then .ClientError
        else if 500 ≤ code ∧ code < 600 then .ServerError
        else .OtherFailure
      else .OtherFailure
  | none => .OtherFailure

/-- Possible results of running load_flare.py main after argument
parsing: the command-template validation error (lines 150-157, printed
and returned before any pool exists), the ValueError that
ThreadPoolExecutor raises for a non-positive max_workers (line 173), or
the final summary. -/
inductive RunOutcome where
  | configError
  | invalidConcurrency
  | report (r : RunReport)
deriving DecidableEq, Repr

/-- Extract the report of a run outcome, if one was produced. -/
def RunOutcome.report? : RunOutcome → Option RunReport
  | .report r => some r
  | _ => none

/-- load_flare.py lines 150-205 (main, after argparse): validate that the
tokenized template is nonempty and starts with curl; create the pool
(ValueError when concurrency <= 0); submit execute_curl for request
numbers 1..requests (range(1, requests + 1), empty when requests <= 0);
fold the results into the four counters; report args.requests as the
total. -/
def main (command_args : List String) (requests concurrency : Int)
    (subprocessRun : Nat → List String → Except ExecError ProcessResult) :
    RunOutcome :=
  if command_args.head? ≠ some "curl" then .configError
  else if concurrency ≤ 0 then .invalidConcurrency
  else
    .report (collectResults classify
      ((List.range' 1 requests.toNat).map
        (fun i => execute_curl command_args (subprocessRun i)))
      { totalAttempted := requests, success := 0, clientError := 0,
        serverError := 0, otherFailure := 0 })

end LoadFlare

namespace MultiLoadFlare

/-- multi_load_flare.py lines 49-57: the skip_next loop that copies the
tail of the user arguments while dropping every -w or --write-out token
together with the argument immediately following it.  The Bool argument
is the skip_next flag. -/
def stripWriteOutAux (skip_next : Bool) : List String → List String
  | [] => []
  | arg :: rest =>
    if skip_next then stripWriteOutAux false rest
    else if arg = "-w" ∨ arg = "--write-out" then stripWriteOutAux true rest
    else arg :: stripWriteOutAux false rest

/-- The skip_next loop started with skip_next = False. -/
def stripWriteOut (l : List String) : List String := stripWriteOutAux false l

/-- multi_load_flare.py lines 36-57: the constructed command: the leading
token, then -s unless -s or --silent occurs among the input arguments,
then -L unless -L or --location occurs, then -w and the format string,
then the remaining input arguments with user -w or --write-out pairs
removed.  An empty input would raise IndexError in Python; main only
passes nonempty lists headed by curl. -/
def modified_command_args : List String → List String
  | [] => []
  | c0 :: rest =>
    (if "-s" ∈ (c0 :: rest) ∨ "--silent" ∈ (c0 :: rest) then [c0]
     else [c0, "-s"])
    ++ (if "-L" ∈ (c0 :: rest) ∨ "--location" ∈ (c0 :: rest) then []
        else ["-L"])
    ++ ["-w", httpCodeFmt]
    ++ stripWriteOut rest

/-- multi_load_flare.py lines 73-81: re.search for three digits at the
very end of the stripped stdout (the regex allows one trailing newline,
which stripping has already removed): the status code is present exactly
when the stripped stdout ends in three digit characters, and its value is
those three characters read as a number. -/
def extract_status (stdout : String) : Option Nat :=
  let cs := stripChars stdout.data
  if 3 ≤ cs.length ∧ (cs.drop (cs.length - 3)).all Char.isDigit then
    some (digitsToNat (cs.drop (cs.length - 3)))
  else none

/-- multi_load_flare.py lines 12-145 (execute_curl), restricted to the
data the collection loop consumes: on a completed process return
(returncode, extracted status code); on FileNotFoundError or any other
exception return (-1, none). -/
def execute_curl (command_args : List String)
    (subprocessRun : List String → Except ExecError ProcessResult) :
    Int × Option Nat :=
  match subprocessRun (modified_command_args command_args) with
  | .error _ => (-1, none)
  | .ok p => (p.returncode, extract_status p.stdout)

/-- multi_load_flare.py lines 271-284: the per-result branch of the
as_completed loop.  When a status code is present the branch tests only
the code ranges (the return code is not consulted); when it is absent,
both the return_code == 0 branch (line 281) and the final else (line 283)
increment other_failure_count. -/
def classify (return_code : Int) (http_status_code : Option Nat) :
    OutcomeClass :=
  match http_status_code with
  | some code =>
      if 200 ≤ code ∧ code < 400 then .Success
      else if 400 ≤ code ∧ code < 500 then .ClientError
      else if 500 ≤ code ∧ code < 600 then .ServerError
      else .OtherFailure
  | none =>
      if return_code = 0 then .OtherFailure
      else .OtherFailure

/-- multi_load_flare.py lines 202-223: the index loop over one tokenized
template that extracts the embedded -n or --requests count (last valid
occurrence wins; an unparsable or missing value leaves the count
unchanged and, for an unparsable value, reprocesses that token as an
ordinary argument), warns about and drops -c or --concurrency (consuming
the following token only when it does not start with a dash), and copies
every other token into final_curl_args in order.  Returns
(final_curl_args, per_cmd_requests). -/
def extractTemplateArgs : List String → Int → List String × Int
  | [], n => ([], n)
  | [arg], n =>
    if arg = "-n" ∨ arg = "--requests" then ([], n)
    else if arg = "-c" ∨ arg = "--concurrency" then ([], n)
    else ([arg], n)
  | arg :: v :: rest2, n =>
    if arg = "-n" ∨ arg = "--requests" then
      match pythonInt? v with
      | some k => extractTemplateArgs rest2 k
      | none => extractTemplateArgs (v :: rest2) n
    else if arg = "-c" ∨ arg = "--concurrency" then
      if startsWithDash v then extractTemplateArgs (v :: rest2) n
      else extractTemplateArgs rest2 n
    else
      let r := extractTemplateArgs (v :: rest2) n
      (arg :: r.1, r.2)

/-- multi_load_flare.py lines 191-227: one tokenized template is skipped
(with a printed message) when it is empty or its first token is not curl,
or when nothing remains after flag extraction; otherwise it yields its
final argument list and its per-command request count. -/
def processTemplate (global_requests : Int) (tokens : List String) :
    Option (List String × Int) :=
  if tokens.head? = some "curl" then
    let r := extractTemplateArgs tokens global_requests
    if r.1 = [] then none else some r
  else none

/-- multi_load_flare.py lines 229-231: the work items one template
contributes to all_tasks: its final argument list repeated
per_cmd_requests times (range of a negative count is empty). -/
def templateTasks (global_requests : Int) (tokens : List String) :
    List (List String) :=
  match processTemplate global_requests tokens with
  | none => []
  | some r => List.replicate r.2.toNat r.1

/-- multi_load_flare.py lines 188-235: all_tasks, in template order. -/
def allTasks (global_requests : Int) (templates : List (List String)) :
    List (List String) :=
  (templates.map (templateTasks global_requests)).flatten

/-- Possible results of running multi_load_flare.py main after argument
parsing: the early exit when no tasks were built (lines 237-239, printed
message, no summary), the ValueError that ThreadPoolExecutor raises for a
non-positive max_workers (line 262), or the final summary. -/
inductive RunOutcome where
  | noTasks
  | invalidConcurrency
  | report (r : RunReport)
deriving DecidableEq, Repr

/-- Extract the report of a run outcome, if one was produced. -/
def RunOutcome.report? : RunOutcome → Option RunReport
  | .report r => some r
  | _ => none

/-- multi_load_flare.py lines 182-298 (main, after argparse): build
all_tasks from the tokenized templates; if empty, exit before creating
the pool; create the pool (ValueError when concurrency <= 0); submit
execute_curl for the enumerated tasks (enumerate(all_tasks, start=1));
fold the results into the four counters; report len(all_tasks) as the
total. -/
def main (templates : List (List String)) (requests concurrency : Int)
    (subprocessRun : Nat → List String → Except ExecError ProcessResult) :
    RunOutcome :=
  if allTasks requests templates = [] then .noTasks
  else if concurrency ≤ 0 then .invalidConcurrency
  else
    .report (collectResults classify
      ((List.enumFrom 1 (allTasks requests templates)).map
        (fun t => execute_curl t.2 (subprocessRun t.1)))
      { totalAttempted := ((allTasks requests templates).length : Int),
        success := 0, clientError := 0, serverError := 0,
        otherFailure := 0 })

end MultiLoadFlare

/-- A stub executor used to instantiate witnesses: every request completes
with exit status 0 and stdout 200. -/
def stubExec : Nat → List String → Except ExecError ProcessResult :=
  fun _ _ => .ok { returncode := 0, stdout := "200", stderr := "" }

/-- A stub executor whose process exits with status 1 while printing a 200
status code. -/
def stubExit1Code200 : Nat → List String → Except ExecError ProcessResult :=
  fun _ _ => .ok { returncode := 1, stdout := "200", stderr := "" }

/-- Bool predicate: every occurrence of a in the list is immediately
followed by b. -/
def followedBy (a b : String) : List String → Bool
  | [] => true
  | x :: rest => ((x != a) || (rest.head? == some b)) && followedBy a b rest

/-! ## Accumulator lemmas -/

theorem addOutcome_classTotal (r : RunReport) (oc : OutcomeClass) :
    (addOutcome r oc).classTotal = r.classTotal + 1 := by
  cases oc <;> simp [addOutcome, RunReport.classTotal] <;> omega

theorem addOutcome_totalAttempted (r : RunReport) (oc : OutcomeClass) :
    (addOutcome r oc).totalAttempted = r.totalAttempted := by
  cases oc <;> rfl

theorem collectResults_cons (f : Int → Option Nat → OutcomeClass)
    (x : Int × Option Nat) (rs : List (Int × Option Nat)) (init : RunReport) :
    collectResults f (x :: rs) init
      = collectResults f rs (addOutcome init (f x.1 x.2)) := rfl

theorem collectResults_classTotal (f : Int → Option Nat → OutcomeClass)
    (rs : List (Int × Option Nat)) :
    ∀ init : RunReport,
      (collectResults f rs init).classTotal = init.classTotal + rs.length := by
  induction rs with
  | nil => intro init; simp [collectResults]
  | cons x rs ih =>
    intro init
    rw [collectResults_cons, ih, addOutcome_classTotal]
    simp [List.length_cons]
    omega

theorem collectResults_totalAttempted (f : Int → Option Nat → OutcomeClass)
    (rs : List (Int × Option Nat)) :
    ∀ init : RunReport,
      (collectResults f rs init).totalAttempted = init.totalAttempted := by
  induction rs with
  | nil => intro init; rfl
  | cons x rs ih =>
    intro init
    rw [collectResults_cons, ih, addOutcome_totalAttempted]

theorem classify_single_nonzero (rc : Int) (code? : Option Nat)
    (h : rc ≠ 0) : LoadFlare.classify rc code? = OutcomeClass.OtherFailure := by
  cases code? with
  | none => rfl
  | some c => simp [LoadFlare.classify, h]

/-! ## Claim C1 -/

/-- Claim C1 (counterexample): in the multi-template variant a request
whose process exits with status 1 while a status code 200 was extracted
from the output increments the Success counter, not OtherFailure. -/
theorem C1_counterexample :
    MultiLoadFlare.main [["curl", "u"]] 1 4 stubExit1Code200
      = MultiLoadFlare.RunOutcome.report
          { totalAttempted := 1, success := 1, clientError := 0,
            serverError := 0, otherFailure := 0 }
    ∧ MultiLoadFlare.classify 1 (some 200) = OutcomeClass.Success
    ∧ MultiLoadFlare.classify 1 (some 200) ≠ OutcomeClass.OtherFailure := by
  refine ⟨by decide, by decide, by decide⟩

/-- Claim C1 (amended): in the single-template variant a non-zero process
exit status always classifies as OtherFailure and never increments the
Success, ClientError or ServerError counters; in the multi-template
variant, whenever a status code was extracted, classification ignores the
exit status entirely (it is decided purely by the code ranges), and a
non-zero exit status with no extracted code yields OtherFailure. -/
theorem C1_exit_status_classification :
    (∀ (rc : Int) (code? : Option Nat), rc ≠ 0 →
      LoadFlare.classify rc code? = OutcomeClass.OtherFailure)
    ∧ (∀ (r : RunReport) (rc : Int) (code? : Option Nat), rc ≠ 0 →
        (addOutcome r (LoadFlare.classify rc code?)).success = r.success
        ∧ (addOutcome r (LoadFlare.classify rc code?)).clientError = r.clientError
        ∧ (addOutcome r (LoadFlare.classify rc code?)).serverError = r.serverError)
    ∧ (∀ (rc : Int) (code : Nat),
        MultiLoadFlare.classify rc (some code) = MultiLoadFlare.classify 0 (some code))
    ∧ (∀ rc : Int, MultiLoadFlare.classify rc none = OutcomeClass.OtherFailure) := by
  refine ⟨classify_single_nonzero, ?_, ?_, ?_⟩
  · intro r rc code? h
    rw [classify_single_nonzero rc code? h]
    simp [addOutcome]
  · intro rc code
    rfl
  · intro rc
    simp [MultiLoadFlare.classify]

/-- Witness for C1: the amended statement instantiated at exit status -1
and 1 with an extracted code 200. -/
theorem C1_witness :
    LoadFlare.classify (-1) (some 200) = OutcomeClass.OtherFailure
    ∧ (addOutcome
        { totalAttempted := 0, success := 0, clientError := 0,
          serverError := 0, otherFailure := 0 }
        (LoadFlare.classify 1 (some 200))).success = 0
    ∧ MultiLoadFlare.classify 7 none = OutcomeClass.OtherFailure := by
  refine ⟨C1_exit_status_classification.1 (-1) (some 200) (by decide),
    ((C1_exit_status_classification.2.1 _ 1 (some 200) (by decide)).1).trans rfl,
    C1_exit_status_classification.2.2.2 7⟩

/-! ## Claim C2 -/

/-- Claim C2 (confirmed): with exit status 0 and an extracted status code,
both variants classify purely by numeric range, and the boundary values
map as the claim lists them. -/
theorem C2_range_classification :
    (∀ code : Nat,
      (200 ≤ code → code < 400 →
        LoadFlare.classify 0 (some code) = OutcomeClass.Success
        ∧ MultiLoadFlare.classify 0 (some code) = OutcomeClass.Success)
      ∧ (400 ≤ code → code < 500 →
        LoadFlare.classify 0 (some code) = OutcomeClass.ClientError
        ∧ MultiLoadFlare.classify 0 (some code) = OutcomeClass.ClientError)
      ∧ (500 ≤ code → code < 600 →
        LoadFlare.classify 0 (some code) = OutcomeClass.ServerError
        ∧ MultiLoadFlare.classify 0 (some code) = OutcomeClass.ServerError)
      ∧ ((code < 200 ∨ 600 ≤ code) →
        LoadFlare.classify 0 (some code) = OutcomeClass.OtherFailure
        ∧ MultiLoadFlare.classify 0 (some code) = OutcomeClass.OtherFailure))
    ∧ (LoadFlare.classify 0 (some 199) = OutcomeClass.OtherFailure
      ∧ LoadFlare.classify 0 (some 200) = OutcomeClass.Success
      ∧ LoadFlare.classify 0 (some 399) = OutcomeClass.Success
      ∧ LoadFlare.classify 0 (some 400) = OutcomeClass.ClientError
      ∧ LoadFlare.classify 0 (some 499) = OutcomeClass.ClientError
      ∧ LoadFlare.classify 0 (some 500) = OutcomeClass.ServerError
      ∧ LoadFlare.classify 0 (some 599) = OutcomeClass.ServerError
      ∧ LoadFlare.classify 0 (some 600) = OutcomeClass.OtherFailure)
    ∧ (MultiLoadFlare.classify 0 (some 199) = OutcomeClass.OtherFailure
      ∧ MultiLoadFlare.classify 0 (some 200) = OutcomeClass.Success
      ∧ MultiLoadFlare.classify 0 (some 399) = OutcomeClass.Success
      ∧ MultiLoadFlare.classify 0 (some 400) = OutcomeClass.ClientError
      ∧ MultiLoadFlare.classify 0 (some 499) = OutcomeClass.ClientError
      ∧ MultiLoadFlare.classify 0 (some 500) = OutcomeClass.ServerError
      ∧ MultiLoadFlare.classify 0 (some 599) = OutcomeClass.ServerError
      ∧ MultiLoadFlare.classify 0 (some 600) = OutcomeClass.OtherFailure) := by
  refine ⟨?_, by decide, by decide⟩
  intro code
  refine ⟨fun h1 h2 => ?_, fun h1 h2 => ?_, fun h1 h2 => ?_, fun h1 => ?_⟩ <;>
    · constructor <;>
        simp only [LoadFlare.classify, MultiLoadFlare.classify] <;>
        split_ifs <;> first | rfl | omega

/-- Witness for C2: the range statement instantiated at concrete codes in
each band. -/
theorem C2_witness :
    LoadFlare.classify 0 (some 250) = OutcomeClass.Success
    ∧ MultiLoadFlare.classify 0 (some 450) = OutcomeClass.ClientError
    ∧ LoadFlare.classify 0 (some 550) = OutcomeClass.ServerError
    ∧ MultiLoadFlare.classify 0 (some 100) = OutcomeClass.OtherFailure := by
  refine ⟨((C2_range_classification.1 250).1 (by decide) (by decide)).1,
    ((C2_range_classification.1 450).2.1 (by decide) (by decide)).2,
    ((C2_range_classification.1 550).2.2.1 (by decide) (by decide)).1,
    ((C2_range_classification.1 100).2.2.2 (Or.inl (by decide))).2⟩

/-! ## Claim C4 -/

/-- Claim C4 (confirmed): when the executor raises an error of either
subtype, execute_curl of both variants returns exit status -1 with no
status code instead of propagating the exception, that result classifies
as OtherFailure in both variants, and a single-request run of either main
completes with exactly one OtherFailure in its report. -/
theorem C4_executor_error_isolated :
    ∀ (e : ExecError) (command_args : List String),
      LoadFlare.execute_curl command_args (fun _ => Except.error e) = (-1, none)
      ∧ MultiLoadFlare.execute_curl command_args (fun _ => Except.error e) = (-1, none)
      ∧ LoadFlare.classify (-1) none = OutcomeClass.OtherFailure
      ∧ MultiLoadFlare.classify (-1) none = OutcomeClass.OtherFailure
      ∧ LoadFlare.main ["curl", "http://example.com"] 1 1 (fun _ _ => Except.error e)
          = LoadFlare.RunOutcome.report
              { totalAttempted := 1, success := 0, clientError := 0,
                serverError := 0, otherFailure := 1 }
      ∧ MultiLoadFlare.main [["curl", "http://example.com"]] 1 1 (fun _ _ => Except.error e)
          = MultiLoadFlare.RunOutcome.report
              { totalAttempted := 1, success := 0, clientError := 0,
                serverError := 0, otherFailure := 1 } := by
  intro e command_args
  refine ⟨rfl, rfl, rfl, by decide, ?_, ?_⟩ <;> rfl

/-! ## Claim C7 -/

/-- Claim C7 (confirmed): exit status 0 with no extracted status code
classifies as OtherFailure in both variants, and such a result never
increments the Success, ClientError or ServerError counters. -/
theorem C7_no_code_is_other_failure :
    LoadFlare.classify 0 none = OutcomeClass.OtherFailure
    ∧ MultiLoadFlare.classify 0 none = OutcomeClass.OtherFailure
    ∧ (∀ r : RunReport,
        (addOutcome r (LoadFlare.classify 0 none)).success = r.success
        ∧ (addOutcome r (LoadFlare.classify 0 none)).clientError = r.clientError
        ∧ (addOutcome r (LoadFlare.classify 0 none)).serverError = r.serverError
        ∧ (addOutcome r (MultiLoadFlare.classify 0 none)).success = r.success
        ∧ (addOutcome r (MultiLoadFlare.classify 0 none)).clientError = r.clientError
        ∧ (addOutcome r (MultiLoadFlare.classify 0 none)).serverError = r.serverError) := by
  refine ⟨rfl, by decide, ?_⟩
  intro r
  refine ⟨?_, ?_, ?_, ?_, ?_, ?_⟩ <;>
    simp [LoadFlare.classify, MultiLoadFlare.classify, addOutcome]

/-! ## Claim C3 -/

/-- Claim C3 (confirmed): over k submitted work items and any positive
concurrency limit, the report of either variant states k as the total
attempted and its four per-class counters sum to k.  In the
single-template variant the submitted work items are the request numbers
1..n, so k = n.toNat; in the multi-template variant they are all_tasks. -/
theorem C3_report_totals :
    (∀ (command_args : List String) (n c : Int)
        (p : Nat → List String → Except ExecError ProcessResult),
      command_args.head? = some "curl" → 0 ≤ n → 0 < c →
        (LoadFlare.main command_args n c p).report?.map RunReport.totalAttempted
          = some ((n.toNat : Nat) : Int)
        ∧ (LoadFlare.main command_args n c p).report?.map RunReport.classTotal
          = some n.toNat)
    ∧ (∀ (templates : List (List String)) (g c : Int)
        (p : Nat → List String → Except ExecError ProcessResult),
      0 < c → MultiLoadFlare.allTasks g templates ≠ [] →
        (MultiLoadFlare.main templates g c p).report?.map RunReport.totalAttempted
          = some (((MultiLoadFlare.allTasks g templates).length : Nat) : Int)
        ∧ (MultiLoadFlare.main templates g c p).report?.map RunReport.classTotal
          = some (MultiLoadFlare.allTasks g templates).length) := by
  constructor
  · intro command_args n c p hhead hn hc
    have h1 : ¬ command_args.head? ≠ some "curl" := by simp [hhead]
    have h2 : ¬ c ≤ 0 := by omega
    simp only [LoadFlare.main, if_neg h1, if_neg h2]
    constructor
    · simp only [LoadFlare.RunOutcome.report?, Option.map_some']
      rw [collectResults_totalAttempted]
      simp [Int.toNat_of_nonneg hn]
    · simp only [LoadFlare.RunOutcome.report?, Option.map_some']
      rw [collectResults_classTotal]
      simp [RunReport.classTotal]
  · intro templates g c p hc htasks
    have h2 : ¬ c ≤ 0 := by omega
    simp only [MultiLoadFlare.main, if_neg htasks, if_neg h2]
    constructor
    · simp only [MultiLoadFlare.RunOutcome.report?, Option.map_some']
      rw [collectResults_totalAttempted]
    · simp only [MultiLoadFlare.RunOutcome.report?, Option.map_some']
      rw [collectResults_classTotal]
      simp [RunReport.classTotal, List.enumFrom_length]

/-- Witness for C3: both variants instantiated with a stub executor, two
requests for the single variant and one task for the multi variant. -/
theorem C3_witness :
    (LoadFlare.main ["curl", "u"] 2 1 stubExec).report?.map RunReport.totalAttempted
      = some 2
    ∧ (LoadFlare.main ["curl", "u"] 2 1 stubExec).report?.map RunReport.classTotal
      = some 2
    ∧ (MultiLoadFlare.main [["curl", "u"]] 1 1 stubExec).report?.map RunReport.totalAttempted
      = some 1
    ∧ (MultiLoadFlare.main [["curl", "u"]] 1 1 stubExec).report?.map RunReport.classTotal
      = some 1 := by
  refine ⟨(C3_report_totals.1 ["curl", "u"] 2 1 stubExec rfl (by decide) (by decide)).1,
    (C3_report_totals.1 ["curl", "u"] 2 1 stubExec rfl (by decide) (by decide)).2,
    (C3_report_totals.2 [["curl", "u"]] 1 1 stubExec (by decide) (by decide)).1,
    (C3_report_totals.2 [["curl", "u"]] 1 1 stubExec (by decide) (by decide)).2⟩

/-! ## Claim C5 -/

/-- Claim C5 (counterexample): a multi-template invocation with
concurrency 0 whose only template builds zero tasks (embedded -n 0) exits
through the no-tasks early return before the worker pool is ever created:
it does not fail with the invalid-concurrency configuration error. -/
theorem C5_counterexample :
    MultiLoadFlare.main [["curl", "-n", "0", "http://x"]] 1 0 stubExec
      = MultiLoadFlare.RunOutcome.noTasks
    ∧ MultiLoadFlare.main [["curl", "-n", "0", "http://x"]] 1 0 stubExec
      ≠ MultiLoadFlare.RunOutcome.invalidConcurrency := by
  exact ⟨rfl, by decide⟩

/-- Claim C5 (amended): with a non-positive concurrency limit the
single-template variant always fails before any work starts (pool
creation rejects the limit whenever the template validated), and the
multi-template variant fails the same way whenever at least one task was
built; when no task was built the multi variant instead exits cleanly
before the limit is ever validated.  In every case the executor is never
invoked: the run result does not depend on it. -/
theorem C5_nonpositive_concurrency :
    (∀ (command_args : List String) (n c : Int)
        (p : Nat → List String → Except ExecError ProcessResult),
      c ≤ 0 → command_args.head? = some "curl" →
      LoadFlare.main command_args n c p = LoadFlare.RunOutcome.invalidConcurrency)
    ∧ (∀ (command_args : List String) (n c : Int)
        (p q : Nat → List String → Except ExecError ProcessResult),
      c ≤ 0 → LoadFlare.main command_args n c p = LoadFlare.main command_args n c q)
    ∧ (∀ (templates : List (List String)) (g c : Int)
        (p : Nat → List String → Except ExecError ProcessResult),
      c ≤ 0 → MultiLoadFlare.allTasks g templates ≠ [] →
      MultiLoadFlare.main templates g c p = MultiLoadFlare.RunOutcome.invalidConcurrency)
    ∧ (∀ (templates : List (List String)) (g c : Int)
        (p q : Nat → List String → Except ExecError ProcessResult),
      c ≤ 0 → MultiLoadFlare.main templates g c p = MultiLoadFlare.main templates g c q) := by
  refine ⟨?_, ?_, ?_, ?_⟩
  · intro command_args n c p hc hhead
    have h1 : ¬ command_args.head? ≠ some "curl" := by simp [hhead]
    simp only [LoadFlare.main, if_neg h1, if_pos hc]
  · intro command_args n c p q hc
    simp only [LoadFlare.main]
    split_ifs <;> rfl
  · intro templates g c p hc htasks
    simp only [MultiLoadFlare.main, if_neg htasks, if_pos hc]
  · intro templates g c p q hc
    simp only [MultiLoadFlare.main]
    split_ifs <;> rfl

/-- Witness for C5: the amended statement instantiated at concurrency 0
with a validating template (single) and one built task (multi). -/
theorem C5_witness :
    LoadFlare.main ["curl", "u"] 3 0 stubExec = LoadFlare.RunOutcome.invalidConcurrency
    ∧ LoadFlare.main ["curl", "u"] 3 0 stubExec = LoadFlare.main ["curl", "u"] 3 0 stubExit1Code200
    ∧ MultiLoadFlare.main [["curl", "u"]] 1 0 stubExec
      = MultiLoadFlare.RunOutcome.invalidConcurrency
    ∧ MultiLoadFlare.main [["curl", "u"]] 1 0 stubExec
      = MultiLoadFlare.main [["curl", "u"]] 1 0 stubExit1Code200 := by
  refine ⟨C5_nonpositive_concurrency.1 ["curl", "u"] 3 0 stubExec (by decide) rfl,
    C5_nonpositive_concurrency.2.1 ["curl", "u"] 3 0 stubExec stubExit1Code200 (by decide),
    C5_nonpositive_concurrency.2.2.1 [["curl", "u"]] 1 0 stubExec (by decide) (by decide),
    C5_nonpositive_concurrency.2.2.2 [["curl", "u"]] 1 0 stubExec stubExit1Code200 (by decide)⟩

/-! ## Claim C6 -/

/-- Claim C6 (counterexample): a multi-template run whose work-item list
is empty (global default request count 0, no embedded -n) produces no Run
Report at all: it takes the early no-tasks exit instead of returning an
all-zero report. -/
theorem C6_counterexample :
    (MultiLoadFlare.main [["curl", "http://x"]] 0 4 stubExec).report? = none
    ∧ MultiLoadFlare.main [["curl", "http://x"]] 0 4 stubExec
      = MultiLoadFlare.RunOutcome.noTasks := by
  exact ⟨rfl, rfl⟩

/-- Claim C6 (amended): with an empty work-item list the single-template
variant (zero requests) returns a report whose four class counts are zero
and whose stated total is zero, and the multi-template variant exits
early with a message and produces no report; in both variants the
executor is never invoked, witnessed by the run result not depending on
it.  (Wall-clock elapsed time is outside the embedding.) -/
theorem C6_empty_work :
    (∀ (command_args : List String) (c : Int)
        (p : Nat → List String → Except ExecError ProcessResult),
      command_args.head? = some "curl" → 0 < c →
      LoadFlare.main command_args 0 c p
        = LoadFlare.RunOutcome.report
            { totalAttempted := 0, success := 0, clientError := 0,
              serverError := 0, otherFailure := 0 })
    ∧ (∀ (command_args : List String) (c : Int)
        (p q : Nat → List String → Except ExecError ProcessResult),
      LoadFlare.main command_args 0 c p = LoadFlare.main command_args 0 c q)
    ∧ (∀ (templates : List (List String)) (g c : Int)
        (p : Nat → List String → Except ExecError ProcessResult),
      MultiLoadFlare.allTasks g templates = [] →
      MultiLoadFlare.main templates g c p = MultiLoadFlare.RunOutcome.noTasks)
    ∧ (∀ (templates : List (List String)) (g c : Int)
        (p q : Nat → List String → Except ExecError ProcessResult),
      MultiLoadFlare.allTasks g templates = [] →
      MultiLoadFlare.main templates g c p = MultiLoadFlare.main templates g c q) := by
  refine ⟨?_, ?_, ?_, ?_⟩
  · intro command_args c p hhead hc
    have h1 : ¬ command_args.head? ≠ some "curl" := by simp [hhead]
    have h2 : ¬ c ≤ 0 := by omega
    simp only [LoadFlare.main, if_neg h1, if_neg h2]
    rfl
  · intro command_args c p q
    simp only [LoadFlare.main]
    split_ifs <;> rfl
  · intro templates g c p htasks
    simp only [MultiLoadFlare.main, if_pos htasks]
  · intro templates g c p q htasks
    simp only [MultiLoadFlare.main, if_pos htasks]

/-- Witness for C6: zero requests in the single variant with two
different stub executors, and a zero-task multi run. -/
theorem C6_witness :
    LoadFlare.main ["curl", "u"] 0 2 stubExec
      = LoadFlare.RunOutcome.report
          { totalAttempted := 0, success := 0, clientError := 0,
            serverError := 0, otherFailure := 0 }
    ∧ LoadFlare.main ["curl", "u"] 0 2 stubExec
      = LoadFlare.main ["curl", "u"] 0 2 stubExit1Code200
    ∧ MultiLoadFlare.main [["curl", "u"]] 0 2 stubExec
      = MultiLoadFlare.RunOutcome.noTasks
    ∧ MultiLoadFlare.main [["curl", "u"]] 0 2 stubExec
      = MultiLoadFlare.main [["curl", "u"]] 0 2 stubExit1Code200 := by
  refine ⟨C6_empty_work.1 ["curl", "u"] 2 stubExec rfl (by decide),
    C6_empty_work.2.1 ["curl", "u"] 2 stubExec stubExit1Code200,
    C6_empty_work.2.2.1 [["curl", "u"]] 0 2 stubExec (by decide),
    C6_empty_work.2.2.2 [["curl", "u"]] 0 2 stubExec stubExit1Code200 (by decide)⟩

/-! ## Claim C9 -/

/-- Claim C9 (confirmed): a template whose first token is not curl makes
the single-template variant return its configuration error without
executing anything, while the multi-template variant merely skips that
template: it contributes no tasks, and a run including it equals the run
with it removed. -/
theorem C9_invalid_template_scope :
    (∀ (command_args : List String) (n c : Int)
        (p : Nat → List String → Except ExecError ProcessResult),
      command_args.head? ≠ some "curl" →
      LoadFlare.main command_args n c p = LoadFlare.RunOutcome.configError)
    ∧ (∀ (g : Int) (tokens : List String),
      tokens.head? ≠ some "curl" → MultiLoadFlare.templateTasks g tokens = [])
    ∧ (∀ (ts₁ ts₂ : List (List String)) (bad : List String) (g c : Int)
        (p : Nat → List String → Except ExecError ProcessResult),
      bad.head? ≠ some "curl" →
      MultiLoadFlare.main (ts₁ ++ bad :: ts₂) g c p
        = MultiLoadFlare.main (ts₁ ++ ts₂) g c p) := by
  refine ⟨?_, ?_, ?_⟩
  · intro command_args n c p hhead
    simp only [LoadFlare.main, if_pos hhead]
  · intro g tokens hhead
    simp [MultiLoadFlare.templateTasks, MultiLoadFlare.processTemplate, hhead]
  · intro ts₁ ts₂ bad g c p hhead
    have hb : MultiLoadFlare.templateTasks g bad = [] := by
      simp [MultiLoadFlare.templateTasks, MultiLoadFlare.processTemplate, hhead]
    have e : MultiLoadFlare.allTasks g (ts₁ ++ bad :: ts₂)
        = MultiLoadFlare.allTasks g (ts₁ ++ ts₂) := by
      simp [MultiLoadFlare.allTasks, hb]
    simp only [MultiLoadFlare.main, e]

/-- Witness for C9: a non-curl template rejected by the single variant
and skipped, without affecting its siblings, by the multi variant. -/
theorem C9_witness :
    LoadFlare.main ["echo", "hi"] 2 1 stubExec = LoadFlare.RunOutcome.configError
    ∧ MultiLoadFlare.templateTasks 1 ["echo", "hi"] = []
    ∧ MultiLoadFlare.main [["curl", "a"], ["echo", "hi"], ["curl", "b"]] 1 1 stubExec
      = MultiLoadFlare.main [["curl", "a"], ["curl", "b"]] 1 1 stubExec := by
  refine ⟨C9_invalid_template_scope.1 ["echo", "hi"] 2 1 stubExec (by decide),
    C9_invalid_template_scope.2.1 1 ["echo", "hi"] (by decide),
    C9_invalid_template_scope.2.2 [["curl", "a"]] [["curl", "b"]] ["echo", "hi"] 1 1
      stubExec (by decide)⟩

/-! ## Claim C10 -/

theorem stripWriteOutAux_not_mem_flag (x : String)
    (hx : x = "-w" ∨ x = "--write-out") :
    ∀ (l : List String) (b : Bool), x ∉ MultiLoadFlare.stripWriteOutAux b l := by
  intro l
  induction l with
  | nil => intro b; cases b <;> simp [MultiLoadFlare.stripWriteOutAux]
  | cons a rest ih =>
    intro b
    cases b with
    | true => simpa [MultiLoadFlare.stripWriteOutAux] using ih false
    | false =>
      by_cases hw : a = "-w" ∨ a = "--write-out"
      · simpa [MultiLoadFlare.stripWriteOutAux, hw] using ih true
      · push_neg at hw
        have hxa : x ≠ a := by
          rcases hx with h | h <;> (subst h; exact fun he => absurd he.symm (by tauto))
        simp [MultiLoadFlare.stripWriteOutAux, hw, List.mem_cons, hxa, ih false]

theorem stripWriteOutAux_sublist :
    ∀ (l : List String) (b : Bool),
      List.Sublist (MultiLoadFlare.stripWriteOutAux b l) l := by
  intro l
  induction l with
  | nil => intro b; cases b <;> simp [MultiLoadFlare.stripWriteOutAux]
  | cons a rest ih =>
    intro b
    cases b with
    | true =>
      rw [show MultiLoadFlare.stripWriteOutAux true (a :: rest)
            = MultiLoadFlare.stripWriteOutAux false rest from rfl]
      exact (ih false).cons a
    | false =>
      by_cases hw : a = "-w" ∨ a = "--write-out"
      · rw [show MultiLoadFlare.stripWriteOutAux false (a :: rest)
              = if a = "-w" ∨ a = "--write-out" then MultiLoadFlare.stripWriteOutAux true rest
                else a :: MultiLoadFlare.stripWriteOutAux false rest from rfl,
            if_pos hw]
        exact (ih true).cons a
      · rw [show MultiLoadFlare.stripWriteOutAux false (a :: rest)
              = if a = "-w" ∨ a = "--write-out" then MultiLoadFlare.stripWriteOutAux true rest
                else a :: MultiLoadFlare.stripWriteOutAux false rest from rfl,
            if_neg hw]
        exact (ih false).cons₂ a

theorem followedBy_of_not_mem (a b : String) :
    ∀ l : List String, a ∉ l → followedBy a b l = true := by
  intro l
  induction l with
  | nil => intro _; rfl
  | cons x rest ih =>
    intro h
    have hx : x ≠ a := fun he => h (he ▸ List.mem_cons_self x rest)
    have hr : a ∉ rest := fun hm => h (List.mem_cons_of_mem x hm)
    simp [followedBy, Bool.and_eq_true, Bool.or_eq_true, bne_iff_ne, hx, ih hr]

theorem followedBy_cons_of_ne (a b x : String) (l : List String) (hx : x ≠ a) :
    followedBy a b (x :: l) = followedBy a b l := by
  simp [followedBy, bne_iff_ne, hx]

theorem followedBy_cons_pair (a b : String) (l : List String) :
    followedBy a b (a :: b :: l) = followedBy a b (b :: l) := by
  simp [followedBy]

/-- Claim C10 (confirmed): for every argument list headed by curl (the
only lists main ever passes to execute_curl), the constructed command
contains exactly one -w flag, that flag is immediately followed by the
http_code format string, no user --write-out token survives, -s is
present whenever the input contained neither -s nor --silent, -L is
present whenever the input contained neither -L nor --location, and the
remaining user arguments form the tail of the constructed command in
their original relative order (a sublist of the input tail obtained by
deleting only -w and --write-out tokens and their following argument). -/
theorem C10_constructed_command :
    ∀ command_args : List String, command_args.head? = some "curl" →
      (MultiLoadFlare.modified_command_args command_args).count "-w" = 1
      ∧ "--write-out" ∉ MultiLoadFlare.modified_command_args command_args
      ∧ followedBy "-w" httpCodeFmt
          (MultiLoadFlare.modified_command_args command_args) = true
      ∧ ("-s" ∉ command_args → "--silent" ∉ command_args →
          "-s" ∈ MultiLoadFlare.modified_command_args command_args)
      ∧ ("-L" ∉ command_args → "--location" ∉ command_args →
          "-L" ∈ MultiLoadFlare.modified_command_args command_args)
      ∧ List.Sublist (MultiLoadFlare.stripWriteOut command_args.tail)
          command_args.tail
      ∧ List.IsSuffix (MultiLoadFlare.stripWriteOut command_args.tail)
          (MultiLoadFlare.modified_command_args command_args) := by
  intro command_args hhead
  match command_args, hhead with
  | c0 :: rest, hhead =>
  have hc0 : c0 = "curl" := by simpa using hhead
  subst hc0
  have hw : "-w" ∉ MultiLoadFlare.stripWriteOut rest :=
    stripWriteOutAux_not_mem_flag "-w" (Or.inl rfl) rest false
  have hwo : "--write-out" ∉ MultiLoadFlare.stripWriteOut rest :=
    stripWriteOutAux_not_mem_flag "--write-out" (Or.inr rfl) rest false
  have hfb : followedBy "-w" httpCodeFmt
      (httpCodeFmt :: MultiLoadFlare.stripWriteOut rest) = true := by
    rw [followedBy_cons_of_ne _ _ _ _ (by decide)]
    exact followedBy_of_not_mem _ _ _ hw
  have hsub : List.Sublist (MultiLoadFlare.stripWriteOut rest) rest :=
    stripWriteOutAux_sublist rest false
  simp only [MultiLoadFlare.modified_command_args]
  by_cases hs : "-s" ∈ ("curl" :: rest) ∨ "--silent" ∈ ("curl" :: rest) <;>
    by_cases hL : "-L" ∈ ("curl" :: rest) ∨ "--location" ∈ ("curl" :: rest) <;>
    simp only [if_pos, if_neg, hs, hL, ite_true, ite_false, if_true, if_false,
      List.cons_append, List.nil_append, List.singleton_append] <;>
    refine ⟨?_, ?_, ?_, ?_, ?_, ?_, ?_⟩ <;>
    first
    | (exact hsub)
    | (simp [List.count_cons, List.count_eq_zero, hw, httpCodeFmt] <;> done)
    | (simp [List.mem_cons, hwo, httpCodeFmt] <;> done)
    | (rw [followedBy_cons_of_ne _ _ _ _ (by decide),
        followedBy_cons_of_ne _ _ _ _ (by decide),
        followedBy_cons_of_ne _ _ _ _ (by decide),
        followedBy_cons_pair]
       exact hfb)
    | (rw [followedBy_cons_of_ne _ _ _ _ (by decide),
        followedBy_cons_of_ne _ _ _ _ (by decide),
        followedBy_cons_pair]
       exact hfb)
    | (rw [followedBy_cons_of_ne _ _ _ _ (by decide), followedBy_cons_pair]
       exact hfb)
    | (intro h1 h2; exfalso; rcases hs with h | h <;> simp_all <;> done)
    | (intro h1 h2; exfalso; rcases hL with h | h <;> simp_all <;> done)
    | (intro h1 h2; simp [httpCodeFmt] <;> done)
    | (exact ⟨["curl", "-w", httpCodeFmt], rfl⟩)
    | (exact ⟨["curl", "-s", "-w", httpCodeFmt], rfl⟩)
    | (exact ⟨["curl", "-L", "-w", httpCodeFmt], rfl⟩)
    | (exact ⟨["curl", "-s", "-L", "-w", httpCodeFmt], rfl⟩)

/-- Witness for C10: the construction statement instantiated at a
template carrying its own -w flag and no silencing flags. -/
theorem C10_witness :
    (MultiLoadFlare.modified_command_args ["curl", "http://x", "-w", "fmt"]).count "-w" = 1
    ∧ "--write-out" ∉ MultiLoadFlare.modified_command_args ["curl", "http://x", "-w", "fmt"]
    ∧ followedBy "-w" httpCodeFmt
        (MultiLoadFlare.modified_command_args ["curl", "http://x", "-w", "fmt"]) = true
    ∧ ("-s" ∉ ["curl", "http://x", "-w", "fmt"] → "--silent" ∉ ["curl", "http://x", "-w", "fmt"] →
        "-s" ∈ MultiLoadFlare.modified_command_args ["curl", "http://x", "-w", "fmt"])
    ∧ List.Sublist (MultiLoadFlare.stripWriteOut ["http://x", "-w", "fmt"])
        ["http://x", "-w", "fmt"]
    ∧ List.IsSuffix (MultiLoadFlare.stripWriteOut ["http://x", "-w", "fmt"])
        (MultiLoadFlare.modified_command_args ["curl", "http://x", "-w", "fmt"]) := by
  have h := C10_constructed_command ["curl", "http://x", "-w", "fmt"] rfl
  exact ⟨h.1, h.2.1, h.2.2.1, h.2.2.2.1, h.2.2.2.2.2.1, h.2.2.2.2.2.2⟩

/-! ## Claim C8 -/

theorem extract_one (arg : String) (n : Int) :
    MultiLoadFlare.extractTemplateArgs [arg] n
      = if arg = "-n" ∨ arg = "--requests" then ([], n)
        else if arg = "-c" ∨ arg = "--concurrency" then ([], n)
        else ([arg], n) := rfl

theorem extract_cons₂ (arg v : String) (rest2 : List String) (n : Int) :
    MultiLoadFlare.extractTemplateArgs (arg :: v :: rest2) n
      = if arg = "-n" ∨ arg = "--requests" then
          match pythonInt? v with
          | some k => MultiLoadFlare.extractTemplateArgs rest2 k
          | none => MultiLoadFlare.extractTemplateArgs (v :: rest2) n
        else if arg = "-c" ∨ arg = "--concurrency" then
          if startsWithDash v then MultiLoadFlare.extractTemplateArgs (v :: rest2) n
          else MultiLoadFlare.extractTemplateArgs rest2 n
        else
          (arg :: (MultiLoadFlare.extractTemplateArgs (v :: rest2) n).1,
            (MultiLoadFlare.extractTemplateArgs (v :: rest2) n).2) := rfl

theorem extract_requests_of_not_mem :
    ∀ (l : List String) (n : Int), "-n" ∉ l → "--requests" ∉ l →
      (MultiLoadFlare.extractTemplateArgs l n).2 = n := by
  intro l n
  induction l, n using MultiLoadFlare.extractTemplateArgs.induct with
  | case1 n => intro _ _; rfl
  | case2 arg n harg =>
    intro h1 h2
    rcases harg with h | h <;> subst h <;> simp_all
  | case3 arg n harg1 harg2 =>
    intro h1 h2
    rw [extract_one, if_neg harg1, if_pos harg2]
  | case4 arg n harg1 harg2 =>
    intro h1 h2
    rw [extract_one, if_neg harg1, if_neg harg2]
  | case5 arg v rest2 n harg k hk ih =>
    intro h1 h2
    rcases harg with h | h <;> subst h <;> simp_all
  | case6 arg v rest2 n harg hk ih =>
    intro h1 h2
    rcases harg with h | h <;> subst h <;> simp_all
  | case7 arg v rest2 n harg1 harg2 hdash ih =>
    intro h1 h2
    rw [extract_cons₂, if_neg harg1, if_pos harg2, if_pos hdash]
    exact ih (fun hm => h1 (List.mem_cons_of_mem _ hm))
      (fun hm => h2 (List.mem_cons_of_mem _ hm))
  | case8 arg v rest2 n harg1 harg2 hdash ih =>
    intro h1 h2
    rw [extract_cons₂, if_neg harg1, if_pos harg2, if_neg hdash]
    exact ih
      (fun hm => h1 (List.mem_cons_of_mem _ (List.mem_cons_of_mem _ hm)))
      (fun hm => h2 (List.mem_cons_of_mem _ (List.mem_cons_of_mem _ hm)))
  | case9 arg v rest2 n harg1 harg2 ih =>
    intro h1 h2
    rw [extract_cons₂, if_neg harg1, if_neg harg2]
    exact ih (fun hm => h1 (List.mem_cons_of_mem _ hm))
      (fun hm => h2 (List.mem_cons_of_mem _ hm))

theorem extract_requests_embedded (v : String) (post : List String) (k : Int)
    (hv : pythonInt? v = some k) (hp1 : "-n" ∉ post) (hp2 : "--requests" ∉ post) :
    ∀ (l : List String) (n : Int) (pre : List String),
      l = pre ++ "-n" :: v :: post →
      (MultiLoadFlare.extractTemplateArgs l n).2 = k := by
  intro l n
  induction l, n using MultiLoadFlare.extractTemplateArgs.induct with
  | case1 n =>
    intro pre h
    have hlen := congrArg List.length h
    simp only [List.length_nil, List.length_append, List.length_cons] at hlen
    omega
  | case2 arg n harg =>
    intro pre h
    have hlen := congrArg List.length h
    simp only [List.length_cons, List.length_nil, List.length_append] at hlen
    omega
  | case3 arg n harg1 harg2 =>
    intro pre h
    have hlen := congrArg List.length h
    simp only [List.length_cons, List.length_nil, List.length_append] at hlen
    omega
  | case4 arg n harg1 harg2 =>
    intro pre h
    have hlen := congrArg List.length h
    simp only [List.length_cons, List.length_nil, List.length_append] at hlen
    omega
  | case5 arg v' rest2 n harg k' hk' ih =>
    intro pre h
    cases pre with
    | nil =>
      simp only [List.nil_append] at h
      injection h with h1 h2
      injection h2 with h2a h2b
      subst h1; subst h2a; subst h2b
      rw [extract_cons₂, if_pos harg, hk']
      have hkk : k' = k := by
        rw [hk'] at hv
        exact Option.some.inj hv
      subst hkk
      exact extract_requests_of_not_mem _ _ hp1 hp2
    | cons p pre' =>
      cases pre' with
      | nil =>
        simp only [List.cons_append, List.nil_append] at h
        injection h with h1 h2
        injection h2 with h2a h2b
        rw [h2a] at hk'
        rw [show pythonInt? "-n" = none from by decide] at hk'
        exact Option.noConfusion hk'
      | cons q pre'' =>
        simp only [List.cons_append] at h
        injection h with h1 h2
        injection h2 with h2a h2b
        rw [extract_cons₂, if_pos harg, hk']
        exact ih pre'' h2b
  | case6 arg v' rest2 n harg hk' ih =>
    intro pre h
    cases pre with
    | nil =>
      simp only [List.nil_append] at h
      injection h with h1 h2
      injection h2 with h2a h2b
      rw [h2a] at hk'
      rw [hk'] at hv
      exact Option.noConfusion hv
    | cons p pre' =>
      simp only [List.cons_append] at h
      injection h with h1 h2
      rw [extract_cons₂, if_pos harg, hk']
      exact ih pre' h2
  | case7 arg v' rest2 n harg1 harg2 hdash ih =>
    intro pre h
    cases pre with
    | nil =>
      simp only [List.nil_append] at h
      injection h with h1 h2
      exact absurd (Or.inl h1) harg1
    | cons p pre' =>
      simp only [List.cons_append] at h
      injection h with h1 h2
      rw [extract_cons₂, if_neg harg1, if_pos harg2, if_pos hdash]
      exact ih pre' h2
  | case8 arg v' rest2 n harg1 harg2 hdash ih =>
    intro pre h
    cases pre with
    | nil =>
      simp only [List.nil_append] at h
      injection h with h1 h2
      exact absurd (Or.inl h1) harg1
    | cons p pre' =>
      cases pre' with
      | nil =>
        simp only [List.cons_append, List.nil_append] at h
        injection h with h1 h2
        injection h2 with h2a h2b
        rw [h2a] at hdash
        exact absurd (by decide) hdash
      | cons q pre'' =>
        simp only [List.cons_append] at h
        injection h with h1 h2
        injection h2 with h2a h2b
        rw [extract_cons₂, if_neg harg1, if_pos harg2, if_neg hdash]
        exact ih pre'' h2b
  | case9 arg v' rest2 n harg1 harg2 ih =>
    intro pre h
    cases pre with
    | nil =>
      simp only [List.nil_append] at h
      injection h with h1 h2
      exact absurd (Or.inl h1) harg1
    | cons p pre' =>
      simp only [List.cons_append] at h
      injection h with h1 h2
      rw [extract_cons₂, if_neg harg1, if_neg harg2]
      exact ih pre' h2

theorem extract_head_curl (rest : List String) (n : Int) :
    (MultiLoadFlare.extractTemplateArgs ("curl" :: rest) n).1 ≠ [] := by
  cases rest with
  | nil =>
    rw [extract_one, if_neg (by decide), if_neg (by decide)]
    simp
  | cons v rest2 =>
    rw [extract_cons₂, if_neg (by decide), if_neg (by decide)]
    simp

theorem extract_drops_flags :
    ∀ (l : List String) (n : Int),
      "-c" ∉ (MultiLoadFlare.extractTemplateArgs l n).1
      ∧ "--concurrency" ∉ (MultiLoadFlare.extractTemplateArgs l n).1 := by
  intro l n
  induction l, n using MultiLoadFlare.extractTemplateArgs.induct with
  | case1 n => simp [MultiLoadFlare.extractTemplateArgs]
  | case2 arg n harg => rw [extract_one, if_pos harg]; simp
  | case3 arg n harg1 harg2 => rw [extract_one, if_neg harg1, if_pos harg2]; simp
  | case4 arg n harg1 harg2 =>
    rw [extract_one, if_neg harg1, if_neg harg2]
    push_neg at harg2
    exact ⟨fun hm => harg2.1 (List.mem_singleton.mp hm).symm,
      fun hm => harg2.2 (List.mem_singleton.mp hm).symm⟩
  | case5 arg v rest2 n harg k hk ih => rw [extract_cons₂, if_pos harg, hk]; exact ih
  | case6 arg v rest2 n harg hk ih => rw [extract_cons₂, if_pos harg, hk]; exact ih
  | case7 arg v rest2 n harg1 harg2 hdash ih =>
    rw [extract_cons₂, if_neg harg1, if_pos harg2, if_pos hdash]; exact ih
  | case8 arg v rest2 n harg1 harg2 hdash ih =>
    rw [extract_cons₂, if_neg harg1, if_pos harg2, if_neg hdash]; exact ih
  | case9 arg v rest2 n harg1 harg2 ih =>
    rw [extract_cons₂, if_neg harg1, if_neg harg2]
    push_neg at harg2
    refine ⟨fun hm => ?_, fun hm => ?_⟩
    · rcases List.mem_cons.mp hm with he | hm2
      · exact harg2.1 he.symm
      · exact ih.1 hm2
    · rcases List.mem_cons.mp hm with he | hm2
      · exact harg2.2 he.symm
      · exact ih.2 hm2

/-- Claim C8 (counterexample): a template embedding -n -1, a valid
integer, contributes 0 tasks, not -1 tasks (range of a negative count is
empty), so the claim as stated fails for negative embedded counts. -/
theorem C8_counterexample :
    ¬ (((MultiLoadFlare.templateTasks 1 ["curl", "-n", "-1", "http://x"]).length : Int)
      = -1) := by decide

/-- Claim C8 (amended): a template embedding -n with a valid integer
count (last occurrence winning) contributes exactly max(count, 0) tasks,
overriding the global default; a template embedding no -n or --requests
contributes exactly max(global default, 0) tasks; and every embedded -c
or --concurrency token is dropped from the final argument list (the
worker-pool size is taken solely from the global concurrency argument,
which template parsing never touches). -/
theorem C8_template_task_counts :
    (∀ (g : Int) (rest : List String),
      "-n" ∉ ("curl" :: rest) → "--requests" ∉ ("curl" :: rest) →
      (MultiLoadFlare.templateTasks g ("curl" :: rest)).length = g.toNat)
    ∧ (∀ (g : Int) (pre post : List String) (v : String) (k : Int),
      pythonInt? v = some k → "-n" ∉ post → "--requests" ∉ post →
      (MultiLoadFlare.templateTasks g ("curl" :: (pre ++ "-n" :: v :: post))).length
        = k.toNat)
    ∧ (∀ (l : List String) (n : Int),
      "-c" ∉ (MultiLoadFlare.extractTemplateArgs l n).1
      ∧ "--concurrency" ∉ (MultiLoadFlare.extractTemplateArgs l n).1) := by
  refine ⟨?_, ?_, extract_drops_flags⟩
  · intro g rest h1 h2
    have hr2 := extract_requests_of_not_mem ("curl" :: rest) g h1 h2
    have hne := extract_head_curl rest g
    simp [MultiLoadFlare.templateTasks, MultiLoadFlare.processTemplate, hne, hr2]
  · intro g pre post v k hv hp1 hp2
    have hr2 := extract_requests_embedded v post k hv hp1 hp2
      ("curl" :: (pre ++ "-n" :: v :: post)) g ("curl" :: pre) (by simp)
    have hne := extract_head_curl (pre ++ "-n" :: v :: post) g
    simp [MultiLoadFlare.templateTasks, MultiLoadFlare.processTemplate, hne, hr2]

/-- Witness for C8: a template with no embedded -n under global default
2, a template embedding -n 3, and a template embedding -c 9. -/
theorem C8_witness :
    (MultiLoadFlare.templateTasks 2 ["curl", "http://x"]).length = (2 : Int).toNat
    ∧ (MultiLoadFlare.templateTasks 1 ["curl", "-n", "3", "http://x"]).length
      = (3 : Int).toNat
    ∧ "-c" ∉ (MultiLoadFlare.extractTemplateArgs ["curl", "-c", "9", "http://x"] 1).1 := by
  refine ⟨C8_template_task_counts.1 2 ["http://x"] (by decide) (by decide),
    C8_template_task_counts.2.1 1 [] ["http://x"] "3" 3 (by decide) (by decide) (by decide),
    (C8_template_task_counts.2.2 ["curl", "-c", "9", "http://x"] 1).1⟩
